import Mathlib

/-!
Verification of the message synchronization engine of this repository.

The embedding below follows the evolved `MessagesProvider` variant in
src/unnamed/part_001 (lines 21-218): the message record, the identity/dedup
tests, the optimistic submit path (`addOptimisticMessage`, lines 77-101), the
snapshot fetch (`fetchMessages`, lines 32-65), the conversation switch
(`setContactId`, lines 70-75) and the realtime change handler (lines 108-164).
The push service worker of src/unnamed/part_000 (lines 1-23) is embedded at
the end of the definitions.

State mutations are modelled as explicit `Action`s so that a single operation
is a *trace* of primitive setter calls (mirroring the sequence of `setState`
calls the source performs); the resulting state is the left fold of the trace.
The remote store is an oracle `String → Except String (List WhatsAppMessage)`
standing for the scoped query
`select * ... or(from.eq.id,to.eq.id) order by created_at asc`.
-/

/-- Message record (the `WhatsAppMessage` shape used throughout
src/unnamed/part_001; `from` is a Lean keyword, so that field is `from_`).
Ids are JS numbers produced by the database or by `Date.now()`, modelled as
`Nat`; nullable string columns are `Option String`. -/
structure WhatsAppMessage where
  id : Nat
  type : String
  from_ : Option String
  to_ : Option String
  text : Option String
  media_url : Option String
  is_reply : Option String
  reply_to_mid : Option String
  mid : Option String
  created_at : String
  status : String
deriving DecidableEq, Repr

/-- JS truthiness of a nullable string: `null`/`undefined` and `""` are falsy. -/
def strTruthy : Option String → Bool
  | none => false
  | some s => s != ""

/-- External-id comparison on raw mid fields:
`a && b && a === b` (both truthy and equal). -/
def midMatchKey (a b : Option String) : Bool :=
  strTruthy a && strTruthy b && a == b

/-- External-id comparison between two message records:
`m.mid && x.mid && m.mid === x.mid` (src/unnamed/part_001 lines 94 and 130). -/
def midMatch (m x : WhatsAppMessage) : Bool :=
  midMatchKey m.mid x.mid

/-- Identity test used both by `addOptimisticMessage` (src/unnamed/part_001
line 93-95) and by the INSERT handler (lines 129-131):
`m.id === x.id || (m.mid && x.mid && m.mid === x.mid)`. -/
def sameMessage (m x : WhatsAppMessage) : Bool :=
  m.id == x.id || midMatch m x

/-- Test of the regex `/^\d+$/` (one or more ASCII digits, nothing else),
src/unnamed/part_001 lines 123 and 141. -/
def isNumericId (s : String) : Bool :=
  s != "" && s.data.all Char.isDigit

/-- Owning conversation of a realtime message (src/unnamed/part_001 lines
123-125 and 141-143): `msg.from && /^\d+$/.test(msg.from) ? msg.from : msg.to`.
A falsy (`null` or empty) sender field falls through to the recipient. -/
def msgContact (m : WhatsAppMessage) : Option String :=
  match m.from_ with
  | some s => if isNumericId s then some s else m.to_
  | none => m.to_

/-- Spread `{ ...msg, status: 'sent' }` used by the INSERT handler (line 134,
137) and the UPDATE handler (line 148). -/
def setSent (m : WhatsAppMessage) : WhatsAppMessage :=
  { m with status := "sent" }

/-- INSERT handler list update (src/unnamed/part_001 lines 128-138):
`findIndex` of the first entry matching by id or non-empty mid; if found,
assign `{ ...newMsg, status: 'sent' }` at that index (copy-on-write `set`);
otherwise append `{ ...newMsg, status: 'sent' }` at the end. -/
def handleInsert (newMsg : WhatsAppMessage) (prev : List WhatsAppMessage) :
    List WhatsAppMessage :=
  match prev.findIdx? (fun m => sameMessage m newMsg) with
  | some i => prev.set i (setSent newMsg)
  | none => prev ++ [setSent newMsg]

/-- UPDATE handler list update (src/unnamed/part_001 lines 146-150):
`prev.map(m => m.id === updatedMsg.id ? { ...updatedMsg, status: 'sent' } : m)`. -/
def handleUpdate (updatedMsg : WhatsAppMessage) (prev : List WhatsAppMessage) :
    List WhatsAppMessage :=
  prev.map (fun m => if m.id == updatedMsg.id then setSent updatedMsg else m)

/-- DELETE handler list update (src/unnamed/part_001 line 153):
`prev.filter(m => m.id !== deletedId)`. -/
def handleDelete (deletedId : Nat) (prev : List WhatsAppMessage) :
    List WhatsAppMessage :=
  prev.filter (fun m => m.id != deletedId)

/-- Optimistic submit list update (src/unnamed/part_001 lines 92-98):
if some entry matches by id or non-empty mid, keep the list unchanged,
otherwise append the synthesized record. -/
def addOptimistic (newMsg : WhatsAppMessage) (prev : List WhatsAppMessage) :
    List WhatsAppMessage :=
  if prev.any (fun m => sameMessage m newMsg) then prev else prev ++ [newMsg]

/-- Caller-supplied partial message (`Partial<WhatsAppMessage>`); every field
may be absent. `undefined` and `null` are collapsed into `none` for the
fields the source reads with `?? null`. -/
structure MsgInput where
  id : Option Nat := none
  type : Option String := none
  from_ : Option String := none
  to_ : Option String := none
  text : Option String := none
  media_url : Option String := none
  is_reply : Option String := none
  reply_to_mid : Option String := none
  mid : Option String := none
  created_at : Option String := none
deriving DecidableEq, Repr

/-- Record synthesis of `addOptimisticMessage` (src/unnamed/part_001 lines
78-90). `now` models `Date.now()` and `nowIso` models
`new Date().toISOString()`. Note the JS `||` defaults: a supplied id of `0`
and a supplied empty `type` or `created_at` string are falsy and replaced by
the defaults, while the `?? null` fields keep any supplied value. -/
def synthesizeMessage (now : Nat) (nowIso : String) (p : MsgInput) :
    WhatsAppMessage :=
  { id := match p.id with
      | some n => if n == 0 then now else n
      | none => now
    type := match p.type with
      | some t => if t == "" then "text" else t
      | none => "text"
    from_ := p.from_
    to_ := p.to_
    text := p.text
    media_url := p.media_url
    is_reply := p.is_reply
    reply_to_mid := p.reply_to_mid
    mid := p.mid
    created_at := match p.created_at with
      | some s => if s == "" then nowIso else s
      | none => nowIso
    status := "sending" }

/-- Engine state: the `messages`, `loading` and `error` React states plus the
`contactIdRef` mutable ref (src/unnamed/part_001 lines 22-30). -/
structure EngineState where
  messages : List WhatsAppMessage
  loading : Bool
  error : Option String
  contactId : Option String
deriving DecidableEq, Repr

/-- Initial provider state (src/unnamed/part_001 lines 22-24, 30):
empty list, `loading = false`, no error, no active contact. -/
def initState : EngineState :=
  { messages := [], loading := false, error := none, contactId := none }

/-- Primitive state mutations. Each constructor is one `setX(...)` call of the
source (functional updaters are specialised to the list operation they
perform); `remoteQuery` is an instrumentation marker recording that the
remote store was queried for the given conversation id. -/
inductive EngineAction where
  | replaceMessages (l : List WhatsAppMessage)
  | setLoading (b : Bool)
  | setError (e : Option String)
  | setContact (c : Option String)
  | remoteQuery (id : String)
  | optimisticAdd (m : WhatsAppMessage)
  | rtInsert (m : WhatsAppMessage)
  | rtUpdate (m : WhatsAppMessage)
  | rtDelete (i : Nat)
deriving DecidableEq, Repr

/-- Effect of one primitive mutation on the engine state. The three realtime
constructors and `optimisticAdd` apply the corresponding functional updater
to the current list (`setMessages(prev => ...)`). -/
def applyAction (st : EngineState) : EngineAction → EngineState
  | EngineAction.replaceMessages l => { st with messages := l }
  | EngineAction.setLoading b => { st with loading := b }
  | EngineAction.setError e => { st with error := e }
  | EngineAction.setContact c => { st with contactId := c }
  | EngineAction.remoteQuery _ => st
  | EngineAction.optimisticAdd m => { st with messages := addOptimistic m st.messages }
  | EngineAction.rtInsert m => { st with messages := handleInsert m st.messages }
  | EngineAction.rtUpdate m => { st with messages := handleUpdate m st.messages }
  | EngineAction.rtDelete i => { st with messages := handleDelete i st.messages }

/-- Left fold of a trace of mutations over a state. -/
def applyTrace (st : EngineState) (as : List EngineAction) : EngineState :=
  as.foldl applyAction st

/-- Trace of `fetchMessages(forContactId?)` (src/unnamed/part_001 lines 32-65).
The argument distinguishes an omitted parameter (`none`, use
`contactIdRef.current`) from an explicitly passed `null` (`some none`). A
falsy resolved id (`null` or `""`) clears the list and the loading flag and
issues no query. Otherwise the error is reset, the scoped query runs, and on
success the list is replaced wholesale while on failure only the error is
recorded; `finally` always clears the loading flag. `fetchMessages` never
sets `loading` to true (source comment, lines 43-46). -/
def fetchTrace (remote : String → Except String (List WhatsAppMessage))
    (forContactId : Option (Option String)) (st : EngineState) : List EngineAction :=
  match forContactId.getD st.contactId with
  | none => [EngineAction.replaceMessages [], EngineAction.setLoading false]
  | some s =>
    if s = "" then [EngineAction.replaceMessages [], EngineAction.setLoading false]
    else
      match remote s with
      | Except.ok data =>
          [EngineAction.setError none, EngineAction.remoteQuery s,
           EngineAction.replaceMessages data, EngineAction.setLoading false]
      | Except.error e =>
          [EngineAction.setError none, EngineAction.remoteQuery s,
           EngineAction.setError (some e), EngineAction.setLoading false]

/-- Trace of `setContactId(id)` (src/unnamed/part_001 lines 70-75): record the
new contact in the ref, clear the list immediately, set `loading = true`
(the only place that does), then run `fetchMessages(id)` with the id passed
explicitly. -/
def selectTrace (remote : String → Except String (List WhatsAppMessage))
    (id : Option String) (st : EngineState) : List EngineAction :=
  [EngineAction.setContact id, EngineAction.replaceMessages [], EngineAction.setLoading true] ++
    fetchTrace remote (some id)
      (applyTrace st
        [EngineAction.setContact id, EngineAction.replaceMessages [], EngineAction.setLoading true])

/-- Realtime change payload (spec section 6: `new` carries the message row;
`old` carries the deleted row, of which the handler reads only `.id`). -/
inductive RealtimePayload where
  | insert (msg : WhatsAppMessage)
  | update (msg : WhatsAppMessage)
  | delete (old : WhatsAppMessage)
deriving Repr

/-- Trace of the realtime subscription callback (src/unnamed/part_001 lines
114-155). If no contact is open (`!currentId`: null or empty), every event is
dropped. INSERT and UPDATE are additionally dropped unless the message's
owning conversation equals the current contact; DELETE performs no such
check and always filters the list by the deleted id. -/
def realtimeTrace (p : RealtimePayload) (st : EngineState) : List EngineAction :=
  match st.contactId with
  | none => []
  | some c =>
    if c = "" then []
    else
      match p with
      | RealtimePayload.insert m =>
          if msgContact m = some c then [EngineAction.rtInsert m] else []
      | RealtimePayload.update m =>
          if msgContact m = some c then [EngineAction.rtUpdate m] else []
      | RealtimePayload.delete old => [EngineAction.rtDelete old.id]

/-- One externally triggered engine operation. `fetch` covers both explicit
`refetch()` calls and every recovery trigger (visibility, online, safety
poll, resubscribe: src/unnamed/part_001 lines 105, 160-162, 166-186), all of
which call `fetchMessages()` with the argument omitted. -/
inductive EngineEvent where
  | select (remote : String → Except String (List WhatsAppMessage))
      (id : Option String)
  | fetch (remote : String → Except String (List WhatsAppMessage))
      (forContactId : Option (Option String))
  | realtime (p : RealtimePayload)
  | optimistic (now : Nat) (nowIso : String) (p : MsgInput)

/-- Trace produced by one engine operation in a given state. -/
def eventTrace (e : EngineEvent) (st : EngineState) : List EngineAction :=
  match e with
  | EngineEvent.select remote id => selectTrace remote id st
  | EngineEvent.fetch remote arg => fetchTrace remote arg st
  | EngineEvent.realtime p => realtimeTrace p st
  | EngineEvent.optimistic now nowIso p =>
      [EngineAction.optimisticAdd (synthesizeMessage now nowIso p)]

/-- State after one engine operation (callback bodies run atomically on the
single-threaded event loop, spec section 5). -/
def applyEvent (st : EngineState) (e : EngineEvent) : EngineState :=
  applyTrace st (eventTrace e st)

/-- State after a sequence of engine operations. -/
def runEvents (st : EngineState) (es : List EngineEvent) : EngineState :=
  es.foldl applyEvent st

/-- Final state of `fetchMessages` (src/unnamed/part_001 lines 32-65). -/
def fetchMessages (remote : String → Except String (List WhatsAppMessage))
    (forContactId : Option (Option String)) (st : EngineState) : EngineState :=
  applyTrace st (fetchTrace remote forContactId st)

/-- Final state of `setContactId` (src/unnamed/part_001 lines 70-75). -/
def setContactId (remote : String → Except String (List WhatsAppMessage))
    (id : Option String) (st : EngineState) : EngineState :=
  applyTrace st (selectTrace remote id st)

/-- The full `addOptimisticMessage` (src/unnamed/part_001 lines 77-101):
synthesizes the record, merges it into the list unless an entry already
matches, and returns the synthesized record to the caller. -/
def addOptimisticMessage (now : Nat) (nowIso : String) (p : MsgInput)
    (st : EngineState) : WhatsAppMessage × EngineState :=
  (synthesizeMessage now nowIso p,
    { st with messages :=
        addOptimistic (synthesizeMessage now nowIso p) st.messages })

/-- Parsed push payload shape `{title, body}` (src/unnamed/part_000 line 6;
the spec's `{title, body, data}` contract, section 6). -/
structure PushData where
  title : String
  body : String
deriving DecidableEq, Repr

/-- Defaults used when the push payload fails to parse
(src/unnamed/part_000 line 3). -/
def defaultPushData : PushData :=
  { title := "New Message", body := "You have a new message" }

/-- Notification as displayed by `showNotification(data.title, options)`
(src/unnamed/part_000 lines 11-22). -/
structure NotificationView where
  title : String
  body : String
  icon : String
  badge : String
  vibrate : List Nat
  tag : String
  renotify : Bool
deriving DecidableEq, Repr

/-- Push event listener (src/unnamed/part_000 lines 2-23). A payload that
fails `event.data.json()` is `none` and falls back to the defaults; a parsed
payload supplies title and body. The icon, badge, vibration pattern and tag
are fixed. -/
def handlePush (parsed : Option PushData) : NotificationView :=
  let data := parsed.getD defaultPushData
  { title := data.title, body := data.body, icon := "/vite.svg",
    badge := "/vite.svg", vibrate := [200, 100, 200],
    tag := "portal-message", renotify := true }

/-- Two entries occupy distinct dedup keys: different identifiers and no
shared non-empty external message identifier. -/
def keyDistinct (m n : WhatsAppMessage) : Prop :=
  m.id ≠ n.id ∧ midMatch m n = false

/-- List invariant: every entry's key is drawn from the admissible key set
`OkM` and entries are pairwise key-distinct (at most one entry per identifier
and per non-empty external id). -/
def InvList (OkM : Nat → Option String → Prop) (l : List WhatsAppMessage) : Prop :=
  (∀ m ∈ l, OkM m.id m.mid) ∧ l.Pairwise keyDistinct

/-- Coherence of an admissible key set: a non-empty external id determines
the identifier (two admissible records sharing a truthy mid are the same
row). -/
def CoherentKeys (OkM : Nat → Option String → Prop) : Prop :=
  ∀ i mi j mj, OkM i mi → OkM j mj → midMatchKey mi mj = true → i = j

/-- Snapshot condition: every successful result of the remote query is itself
duplicate-free and draws its keys from the admissible set. -/
def SnapOk (OkM : Nat → Option String → Prop)
    (remote : String → Except String (List WhatsAppMessage)) : Prop :=
  ∀ s l, remote s = Except.ok l → InvList OkM l

/-- Admissibility of one engine operation: the message records it brings into
play (realtime payloads, optimistic synthesized records, snapshot rows) have
keys in `OkM`, and snapshots are duplicate-free. -/
def OkEvent (OkM : Nat → Option String → Prop) : EngineEvent → Prop
  | EngineEvent.select remote _ => SnapOk OkM remote
  | EngineEvent.fetch remote _ => SnapOk OkM remote
  | EngineEvent.realtime (RealtimePayload.insert m) => OkM m.id m.mid
  | EngineEvent.realtime (RealtimePayload.update m) => OkM m.id m.mid
  | EngineEvent.realtime (RealtimePayload.delete _) => True
  | EngineEvent.optimistic now nowIso p =>
      OkM (synthesizeMessage now nowIso p).id (synthesizeMessage now nowIso p).mid

/-! ### Concrete sample data used by counterexamples and witnesses -/

/-- Concrete message row builder for counterexamples and witnesses. -/
def mkMsg (i : Nat) (f t mi : Option String) : WhatsAppMessage :=
  { id := i, type := "text", from_ := f, to_ := t, text := none,
    media_url := none, is_reply := none, reply_to_mid := none, mid := mi,
    created_at := "", status := "sent" }

/-- Remote store stub whose every query succeeds with the empty snapshot. -/
def remoteEmpty : String → Except String (List WhatsAppMessage) :=
  fun _ => Except.ok []

/-- Remote store stub whose every query fails. -/
def remoteBoom : String → Except String (List WhatsAppMessage) :=
  fun _ => Except.error "boom"

/-- Sample realtime row: id 1, sender "5", no external id. -/
def msgA : WhatsAppMessage := mkMsg 1 (some "5") none none

/-- Sample realtime row: id 2, sender "5", external id "x". -/
def msgB : WhatsAppMessage := mkMsg 2 (some "5") none (some "x")

/-- Sample realtime row: id 1, sender "5", external id "x" (same id as `msgA`,
same external id as `msgB`). -/
def msgC : WhatsAppMessage := mkMsg 1 (some "5") none (some "x")

/-- Event sequence producing a duplicated external id: select conversation
"5" (empty, duplicate-free snapshot), then INSERT `msgA`, `msgB`, `msgC`.
The last INSERT matches `msgA` by identifier and replaces it, leaving two
entries with external id "x". -/
def cex1Events : List EngineEvent :=
  [EngineEvent.select remoteEmpty (some "5"),
   EngineEvent.realtime (RealtimePayload.insert msgA),
   EngineEvent.realtime (RealtimePayload.insert msgB),
   EngineEvent.realtime (RealtimePayload.insert msgC)]

/-- Engine state with conversation "5" active and `msgA` in the list. -/
def stActive5 : EngineState :=
  { messages := [msgA], loading := false, error := none,
    contactId := some "5" }

/-- Engine state with conversation "5" active and an empty list. -/
def stEmpty5 : EngineState :=
  { messages := [], loading := false, error := none, contactId := some "5" }

/-- Engine state with conversation "5" active and an entry of id 5 carrying
external id "x". -/
def stCex2 : EngineState :=
  { messages := [mkMsg 5 (some "5") none (some "x")], loading := false,
    error := none, contactId := some "5" }

/-- Partial message supplying only the identifier 7. -/
def pId7 : MsgInput := { id := some 7 }

/-- Partial message supplying only the identifier 1. -/
def pId1 : MsgInput := { id := some 1 }

/-- Realtime row of id 7 whose external id "x" collides with the entry
already present in `stCex2`. -/
def insCex2 : WhatsAppMessage := mkMsg 7 (some "5") none (some "x")

/-- Realtime row of id 7 with no external id. -/
def insW2 : WhatsAppMessage := mkMsg 7 (some "5") none none

/-! ### Basic lemmas about the identity tests -/

@[simp]
theorem setSent_id (m : WhatsAppMessage) : (setSent m).id = m.id := rfl

@[simp]
theorem setSent_mid (m : WhatsAppMessage) : (setSent m).mid = m.mid := rfl

@[simp]
theorem setSent_status (m : WhatsAppMessage) : (setSent m).status = "sent" := rfl

theorem midMatchKey_iff {a b : Option String} :
    midMatchKey a b = true ↔ strTruthy a = true ∧ strTruthy b = true ∧ a = b := by
  simp [midMatchKey, Bool.and_assoc]

theorem midMatchKey_comm (a b : Option String) : midMatchKey a b = midMatchKey b a := by
  by_cases h : midMatchKey a b = true
  · obtain ⟨h1, h2, h3⟩ := midMatchKey_iff.mp h
    rw [h, Eq.symm (midMatchKey_iff.mpr ⟨h2, h1, h3.symm⟩)]
  · rw [Bool.eq_false_iff.mpr h, Eq.comm, Bool.eq_false_iff]
    intro hba
    obtain ⟨h1, h2, h3⟩ := midMatchKey_iff.mp hba
    exact h (midMatchKey_iff.mpr ⟨h2, h1, h3.symm⟩)

theorem midMatch_comm (m n : WhatsAppMessage) : midMatch m n = midMatch n m :=
  midMatchKey_comm m.mid n.mid

@[simp]
theorem midMatch_setSent_left (m n : WhatsAppMessage) :
    midMatch (setSent m) n = midMatch m n := rfl

@[simp]
theorem midMatch_setSent_right (m n : WhatsAppMessage) :
    midMatch m (setSent n) = midMatch m n := rfl

theorem sameMessage_eq_false_iff {m x : WhatsAppMessage} :
    sameMessage m x = false ↔ m.id ≠ x.id ∧ midMatch m x = false := by
  simp [sameMessage]

theorem sameMessage_true_cases {m x : WhatsAppMessage}
    (h : sameMessage m x = true) : m.id = x.id ∨ midMatch m x = true := by
  simpa [sameMessage] using h

theorem sameMessage_of_id_eq {m x : WhatsAppMessage} (h : m.id = x.id) :
    sameMessage m x = true := by
  simp [sameMessage, h]

/-! ### Recursion equations for the INSERT merge -/

theorem handleInsert_nil (x : WhatsAppMessage) :
    handleInsert x [] = [setSent x] := rfl

theorem handleInsert_cons (x m : WhatsAppMessage) (l : List WhatsAppMessage) :
    handleInsert x (m :: l) =
      if sameMessage m x then setSent x :: l else m :: handleInsert x l := by
  unfold handleInsert
  rw [List.findIdx?_cons]
  by_cases h : sameMessage m x
  · simp [h]
  · simp only [h, Bool.false_eq_true, if_false, List.findIdx?_succ]
    cases hfi : l.findIdx? (fun y => sameMessage y x) with
    | none => simp
    | some i => simp [List.set_cons_succ]

theorem mem_handleInsert {y x : WhatsAppMessage} {l : List WhatsAppMessage}
    (hy : y ∈ handleInsert x l) : y = setSent x ∨ y ∈ l := by
  induction l with
  | nil =>
    rw [handleInsert_nil] at hy
    simp at hy
    exact Or.inl hy
  | cons m rest ih =>
    rw [handleInsert_cons] at hy
    by_cases h : sameMessage m x
    · rw [if_pos h] at hy
      rcases List.mem_cons.mp hy with h1 | h1
      · exact Or.inl h1
      · exact Or.inr (List.mem_cons_of_mem m h1)
    · rw [if_neg h] at hy
      rcases List.mem_cons.mp hy with h1 | h1
      · exact Or.inr (h1 ▸ List.mem_cons_self m rest)
      · rcases ih h1 with h2 | h2
        · exact Or.inl h2
        · exact Or.inr (List.mem_cons_of_mem m h2)

theorem handleInsert_of_no_match {x : WhatsAppMessage} {l : List WhatsAppMessage}
    (h : ∀ m ∈ l, sameMessage m x = false) :
    handleInsert x l = l ++ [setSent x] := by
  induction l with
  | nil => simp [handleInsert_nil]
  | cons m rest ih =>
    rw [handleInsert_cons,
      if_neg (by simp [h m (List.mem_cons_self m rest)]),
      ih fun y hy => h y (List.mem_cons_of_mem m hy)]
    simp

theorem handleInsert_decomp {x : WhatsAppMessage} (l₁ : List WhatsAppMessage)
    {y : WhatsAppMessage} (l₂ : List WhatsAppMessage)
    (h₁ : ∀ m ∈ l₁, sameMessage m x = false) (hy : sameMessage y x = true) :
    handleInsert x (l₁ ++ y :: l₂) = l₁ ++ setSent x :: l₂ := by
  induction l₁ with
  | nil => simp [handleInsert_cons, hy]
  | cons m rest ih =>
    rw [List.cons_append, handleInsert_cons,
      if_neg (by simp [h₁ m (List.mem_cons_self m rest)]),
      ih fun z hz => h₁ z (List.mem_cons_of_mem m hz)]
    simp

/-! ### UPDATE and DELETE characterizations -/

theorem handleUpdate_of_no_match {u : WhatsAppMessage} {l : List WhatsAppMessage}
    (h : ∀ m ∈ l, m.id ≠ u.id) : handleUpdate u l = l := by
  unfold handleUpdate
  induction l with
  | nil => rfl
  | cons m rest ih =>
    rw [List.map_cons, if_neg (by simp [h m (List.mem_cons_self m rest)]),
      ih fun y hy => h y (List.mem_cons_of_mem m hy)]

theorem handleUpdate_decomp {u : WhatsAppMessage} (l₁ : List WhatsAppMessage)
    {y : WhatsAppMessage} (l₂ : List WhatsAppMessage)
    (hy : y.id = u.id) (h₁ : ∀ m ∈ l₁, m.id ≠ u.id) (h₂ : ∀ m ∈ l₂, m.id ≠ u.id) :
    handleUpdate u (l₁ ++ y :: l₂) = l₁ ++ setSent u :: l₂ := by
  have e₁ : handleUpdate u l₁ = l₁ := handleUpdate_of_no_match h₁
  have e₂ : handleUpdate u l₂ = l₂ := handleUpdate_of_no_match h₂
  unfold handleUpdate at e₁ e₂ ⊢
  rw [List.map_append, List.map_cons, if_pos (by simp [hy]), e₁, e₂]

theorem handleDelete_of_no_match {did : Nat} {l : List WhatsAppMessage}
    (h : ∀ m ∈ l, m.id ≠ did) : handleDelete did l = l := by
  unfold handleDelete
  rw [List.filter_eq_self]
  intro a ha
  simp [h a ha]

/-! ### Dedup invariant -/

theorem keyDistinct_symm {m n : WhatsAppMessage} (h : keyDistinct m n) :
    keyDistinct n m :=
  ⟨fun e => h.1 e.symm, (midMatch_comm n m).trans h.2⟩

theorem keyDistinct_of_not_same {m x : WhatsAppMessage}
    (h : sameMessage m x = false) : keyDistinct m x :=
  sameMessage_eq_false_iff.mp h

theorem invList_nil (OkM : Nat → Option String → Prop) : InvList OkM [] :=
  ⟨by simp, List.Pairwise.nil⟩

theorem invList_handleInsert {OkM : Nat → Option String → Prop}
    (hco : CoherentKeys OkM) {x : WhatsAppMessage} (hx : OkM x.id x.mid)
    {l : List WhatsAppMessage} (hl : InvList OkM l) :
    InvList OkM (handleInsert x l) := by
  induction l with
  | nil =>
    rw [handleInsert_nil]
    exact ⟨by simpa using hx, List.pairwise_singleton _ _⟩
  | cons m rest ih =>
    obtain ⟨hmem, hpw⟩ := hl
    rw [List.pairwise_cons] at hpw
    have hmOk : OkM m.id m.mid := hmem m (List.mem_cons_self m rest)
    have hrestOk : ∀ y ∈ rest, OkM y.id y.mid :=
      fun y hy => hmem y (List.mem_cons_of_mem m hy)
    rw [handleInsert_cons]
    by_cases h : sameMessage m x
    · rw [if_pos h]
      -- the first matching entry is replaced in place by the event's record
      refine ⟨?_, List.pairwise_cons.mpr ⟨?_, hpw.2⟩⟩
      · intro y hy
        rcases List.mem_cons.mp hy with h1 | h1
        · rw [h1]; exact hx
        · exact hrestOk y h1
      · intro y hy
        have hmy : keyDistinct m y := hpw.1 y hy
        have hidxy : x.id ≠ y.id := by
          intro hxy
          rcases sameMessage_true_cases h with hid | hmid
          · exact hmy.1 (hid.trans hxy)
          · exact hmy.1 ((hco m.id m.mid x.id x.mid hmOk hx hmid).trans hxy)
        refine ⟨by simpa using hidxy, ?_⟩
        rw [Bool.eq_false_iff]
        intro hmid
        exact hidxy (hco x.id x.mid y.id y.mid hx (hrestOk y hy) hmid)
    · rw [if_neg h]
      have hns : sameMessage m x = false := Bool.eq_false_iff.mpr h
      obtain ⟨ihmem, ihpw⟩ := ih ⟨hrestOk, hpw.2⟩
      refine ⟨?_, List.pairwise_cons.mpr ⟨?_, ihpw⟩⟩
      · intro y hy
        rcases List.mem_cons.mp hy with h1 | h1
        · rw [h1]; exact hmOk
        · exact ihmem y h1
      · intro y hy
        rcases mem_handleInsert hy with h1 | h1
        · rw [h1]
          exact keyDistinct_of_not_same hns
        · exact hpw.1 y h1

theorem invList_handleUpdate {OkM : Nat → Option String → Prop}
    (hco : CoherentKeys OkM) {u : WhatsAppMessage} (hu : OkM u.id u.mid)
    {l : List WhatsAppMessage} (hl : InvList OkM l) :
    InvList OkM (handleUpdate u l) := by
  obtain ⟨hmem, hpw⟩ := hl
  constructor
  · intro y hy
    rcases List.mem_map.mp hy with ⟨z, hz, hzy⟩
    by_cases h : z.id == u.id
    · rw [← hzy, if_pos h]; exact hu
    · rw [← hzy, if_neg h]; exact hmem z hz
  · unfold handleUpdate
    rw [List.pairwise_map]
    refine hpw.imp_of_mem ?_
    intro a b ha hb hab
    by_cases h1 : a.id == u.id <;> by_cases h2 : b.id == u.id
    · exact absurd ((beq_iff_eq.mp h1).trans (beq_iff_eq.mp h2).symm) hab.1
    · rw [if_pos h1, if_neg h2]
      have hbu : b.id ≠ u.id := by simpa using h2
      refine ⟨by simpa [Ne, Eq.comm] using hbu, ?_⟩
      rw [Bool.eq_false_iff]
      intro hmid
      exact hbu (hco b.id b.mid u.id u.mid (hmem b hb) hu
        ((midMatchKey_comm u.mid b.mid) ▸ hmid))
    · rw [if_neg h1, if_pos h2]
      have hau : a.id ≠ u.id := by simpa using h1
      refine ⟨by simpa using hau, ?_⟩
      rw [Bool.eq_false_iff]
      intro hmid
      exact hau (hco a.id a.mid u.id u.mid (hmem a ha) hu hmid)
    · rw [if_neg h1, if_neg h2]
      exact hab

theorem invList_handleDelete {OkM : Nat → Option String → Prop} (did : Nat)
    {l : List WhatsAppMessage} (hl : InvList OkM l) :
    InvList OkM (handleDelete did l) := by
  obtain ⟨hmem, hpw⟩ := hl
  exact ⟨fun y hy => hmem y (List.mem_of_mem_filter hy),
    hpw.sublist (List.filter_sublist l)⟩

theorem invList_addOptimistic {OkM : Nat → Option String → Prop}
    {x : WhatsAppMessage} (hx : OkM x.id x.mid)
    {l : List WhatsAppMessage} (hl : InvList OkM l) :
    InvList OkM (addOptimistic x l) := by
  obtain ⟨hmem, hpw⟩ := hl
  unfold addOptimistic
  by_cases h : l.any (fun m => sameMessage m x)
  · rw [if_pos h]; exact ⟨hmem, hpw⟩
  · rw [if_neg h]
    have hall : ∀ m ∈ l, sameMessage m x = false := by
      intro m hm
      have := List.any_eq_false.mp (Bool.eq_false_iff.mpr h) m hm
      simpa using this
    refine ⟨?_, List.pairwise_append.mpr
      ⟨hpw, List.pairwise_singleton _ _, ?_⟩⟩
    · intro y hy
      rcases List.mem_append.mp hy with h1 | h1
      · exact hmem y h1
      · rw [List.mem_singleton.mp h1]; exact hx
    · intro a ha b hb
      rw [List.mem_singleton.mp hb]
      exact keyDistinct_of_not_same (hall a ha)

/-! ### Unfolding the realtime gate and the traces -/

theorem applyEvent_realtime_none {st : EngineState} (hc : st.contactId = none)
    (p : RealtimePayload) : applyEvent st (EngineEvent.realtime p) = st := by
  simp [applyEvent, eventTrace, realtimeTrace, hc, applyTrace]

theorem applyEvent_realtime_emptyContact {st : EngineState}
    (hc : st.contactId = some "") (p : RealtimePayload) :
    applyEvent st (EngineEvent.realtime p) = st := by
  simp [applyEvent, eventTrace, realtimeTrace, hc, applyTrace]

theorem applyEvent_realtime_insert {st : EngineState} {c : String}
    (hc : st.contactId = some c) (hcne : c ≠ "") {m : WhatsAppMessage}
    (hm : msgContact m = some c) :
    applyEvent st (EngineEvent.realtime (RealtimePayload.insert m)) =
      { st with messages := handleInsert m st.messages } := by
  simp [applyEvent, eventTrace, realtimeTrace, hc, hcne, hm, applyTrace,
    applyAction]

theorem applyEvent_realtime_insert_skip {st : EngineState} {c : String}
    (hc : st.contactId = some c) {m : WhatsAppMessage}
    (hm : msgContact m ≠ some c) :
    applyEvent st (EngineEvent.realtime (RealtimePayload.insert m)) = st := by
  by_cases hcne : c = ""
  · exact applyEvent_realtime_emptyContact (hcne ▸ hc) _
  · simp [applyEvent, eventTrace, realtimeTrace, hc, hcne, hm, applyTrace]

theorem applyEvent_realtime_update {st : EngineState} {c : String}
    (hc : st.contactId = some c) (hcne : c ≠ "") {m : WhatsAppMessage}
    (hm : msgContact m = some c) :
    applyEvent st (EngineEvent.realtime (RealtimePayload.update m)) =
      { st with messages := handleUpdate m st.messages } := by
  simp [applyEvent, eventTrace, realtimeTrace, hc, hcne, hm, applyTrace,
    applyAction]

theorem applyEvent_realtime_update_skip {st : EngineState} {c : String}
    (hc : st.contactId = some c) {m : WhatsAppMessage}
    (hm : msgContact m ≠ some c) :
    applyEvent st (EngineEvent.realtime (RealtimePayload.update m)) = st := by
  by_cases hcne : c = ""
  · exact applyEvent_realtime_emptyContact (hcne ▸ hc) _
  · simp [applyEvent, eventTrace, realtimeTrace, hc, hcne, hm, applyTrace]

theorem applyEvent_realtime_delete {st : EngineState} {c : String}
    (hc : st.contactId = some c) (hcne : c ≠ "") (old : WhatsAppMessage) :
    applyEvent st (EngineEvent.realtime (RealtimePayload.delete old)) =
      { st with messages := handleDelete old.id st.messages } := by
  simp [applyEvent, eventTrace, realtimeTrace, hc, hcne, applyTrace,
    applyAction]

theorem applyEvent_optimistic (st : EngineState) (now : Nat) (nowIso : String)
    (p : MsgInput) :
    applyEvent st (EngineEvent.optimistic now nowIso p) =
      { st with messages :=
          addOptimistic (synthesizeMessage now nowIso p) st.messages } := by
  simp [applyEvent, eventTrace, applyTrace, applyAction]

/-! ### Admissible events and preservation of the dedup invariant -/

theorem invList_fetchMessages {OkM : Nat → Option String → Prop}
    {remote : String → Except String (List WhatsAppMessage)}
    (hsnap : SnapOk OkM remote) (forContactId : Option (Option String))
    {st : EngineState} (hst : InvList OkM st.messages) :
    InvList OkM (fetchMessages remote forContactId st).messages := by
  unfold fetchMessages fetchTrace
  cases harg : forContactId.getD st.contactId with
  | none => simpa [applyTrace, applyAction] using invList_nil OkM
  | some s =>
    by_cases hse : s = ""
    · simpa [hse, applyTrace, applyAction] using invList_nil OkM
    · cases hrem : remote s with
      | ok data =>
        simpa [hse, hrem, applyTrace, applyAction] using hsnap s data hrem
      | error e => simpa [hse, hrem, applyTrace, applyAction] using hst

theorem invList_setContactId {OkM : Nat → Option String → Prop}
    {remote : String → Except String (List WhatsAppMessage)}
    (hsnap : SnapOk OkM remote) (id : Option String) (st : EngineState) :
    InvList OkM (setContactId remote id st).messages := by
  unfold setContactId selectTrace
  rw [applyTrace, List.foldl_append]
  cases id with
  | none => simpa [applyTrace, applyAction, fetchTrace] using invList_nil OkM
  | some s =>
    by_cases hse : s = ""
    · simpa [hse, applyTrace, applyAction, fetchTrace] using invList_nil OkM
    · cases hrem : remote s with
      | ok data =>
        simpa [hse, hrem, applyTrace, applyAction, fetchTrace]
          using hsnap s data hrem
      | error e =>
        simpa [hse, hrem, applyTrace, applyAction, fetchTrace]
          using invList_nil OkM

theorem invList_applyEvent {OkM : Nat → Option String → Prop}
    (hco : CoherentKeys OkM) {e : EngineEvent} (he : OkEvent OkM e)
    {st : EngineState} (hst : InvList OkM st.messages) :
    InvList OkM (applyEvent st e).messages := by
  cases e with
  | select remote id => exact invList_setContactId he id st
  | fetch remote arg => exact invList_fetchMessages he arg hst
  | optimistic now nowIso p =>
    rw [applyEvent_optimistic]
    exact invList_addOptimistic he hst
  | realtime p =>
    cases hc : st.contactId with
    | none => rw [applyEvent_realtime_none hc]; exact hst
    | some c =>
      by_cases hcne : c = ""
      · rw [applyEvent_realtime_emptyContact (hcne ▸ hc)]; exact hst
      · cases p with
        | insert m =>
          by_cases hm : msgContact m = some c
          · rw [applyEvent_realtime_insert hc hcne hm]
            exact invList_handleInsert hco he hst
          · rw [applyEvent_realtime_insert_skip hc hm]; exact hst
        | update m =>
          by_cases hm : msgContact m = some c
          · rw [applyEvent_realtime_update hc hcne hm]
            exact invList_handleUpdate hco he hst
          · rw [applyEvent_realtime_update_skip hc hm]; exact hst
        | delete old =>
          rw [applyEvent_realtime_delete hc hcne]
          exact invList_handleDelete old.id hst

theorem invList_runEvents {OkM : Nat → Option String → Prop}
    (hco : CoherentKeys OkM) {es : List EngineEvent}
    (hes : ∀ e ∈ es, OkEvent OkM e) {st : EngineState}
    (hst : InvList OkM st.messages) :
    InvList OkM (runEvents st es).messages := by
  induction es generalizing st with
  | nil => exact hst
  | cons e rest ih =>
    exact ih (fun x hx => hes x (List.mem_cons_of_mem e hx))
      (invList_applyEvent hco (hes e (List.mem_cons_self e rest)) hst)

/-! ### Remaining helper lemmas for the optimistic path -/

theorem addOptimistic_of_no_match {x : WhatsAppMessage}
    {l : List WhatsAppMessage} (h : ∀ m ∈ l, sameMessage m x = false) :
    addOptimistic x l = l ++ [x] := by
  unfold addOptimistic
  rw [if_neg]
  rw [Bool.not_eq_true, List.any_eq_false]
  intro m hm
  simp [h m hm]

theorem addOptimistic_of_match {x : WhatsAppMessage} {l : List WhatsAppMessage}
    (h : ∃ m ∈ l, sameMessage m x = true) : addOptimistic x l = l := by
  unfold addOptimistic
  rw [if_pos]
  rcases h with ⟨m, hm, hsm⟩
  exact List.any_eq_true.mpr ⟨m, hm, by simp [hsm]⟩

theorem synthesizeMessage_id_of_supplied {p : MsgInput} {k : Nat}
    (hk : p.id = some k) (h0 : k ≠ 0) (now : Nat) (nowIso : String) :
    (synthesizeMessage now nowIso p).id = k := by
  unfold synthesizeMessage
  rw [hk]
  simp [h0]

theorem synthesizeMessage_mid (now : Nat) (nowIso : String) (p : MsgInput) :
    (synthesizeMessage now nowIso p).mid = p.mid := rfl

/-! ### Claims -/

/-- Claim C9: a push payload that fails to parse still produces a
notification with the default title "New Message" and default body
"You have a new message"; a payload that parses produces a notification with
the payload's title and body. -/
theorem claim9_theorem :
    ((handlePush none).title = "New Message" ∧
      (handlePush none).body = "You have a new message") ∧
    ∀ d : PushData, (handlePush (some d)).title = d.title ∧
      (handlePush (some d)).body = d.body :=
  ⟨⟨rfl, rfl⟩, fun _ => ⟨rfl, rfl⟩⟩

/-- Claim C6: `fetchMessages` — hence every background refetch, which calls
it — never emits a `setLoading true` mutation at any point of its trace, in
any state and for any remote outcome; neither do the realtime handler and
the optimistic submit; `setContactId` (select) is the operation whose trace
always contains `setLoading true`. -/
theorem claim6_theorem :
    (∀ remote forContactId st,
      EngineAction.setLoading true ∉ fetchTrace remote forContactId st) ∧
    (∀ p st, EngineAction.setLoading true ∉ realtimeTrace p st) ∧
    (∀ now nowIso p st,
      EngineAction.setLoading true ∉
        eventTrace (EngineEvent.optimistic now nowIso p) st) ∧
    (∀ remote id st, EngineAction.setLoading true ∈ selectTrace remote id st) := by
  refine ⟨?_, ?_, ?_, ?_⟩
  · intro remote forContactId st
    unfold fetchTrace
    cases forContactId.getD st.contactId with
    | none => simp
    | some s =>
      by_cases hse : s = ""
      · simp [hse]
      · cases hrem : remote s with
        | ok data => simp [hse, hrem]
        | error e => simp [hse, hrem]
  · intro p st
    unfold realtimeTrace
    cases st.contactId with
    | none => simp
    | some c =>
      by_cases hce : c = ""
      · simp [hce]
      · cases p with
        | insert m => by_cases hm : msgContact m = some c <;> simp [hce, hm]
        | update m => by_cases hm : msgContact m = some c <;> simp [hce, hm]
        | delete old => simp [hce]
  · intro now nowIso p st
    simp [eventTrace]
  · intro remote id st
    unfold selectTrace
    simp

/-- Claim C8: selecting a null conversation empties the list, ends with
`loading = false` and issues no remote query; a fetch while no conversation
is active likewise clears the list and the loading flag and issues no remote
query. -/
theorem claim8_theorem (remote : String → Except String (List WhatsAppMessage))
    (st : EngineState) :
    ((setContactId remote none st).messages = [] ∧
      (setContactId remote none st).loading = false ∧
      ∀ s, EngineAction.remoteQuery s ∉ selectTrace remote none st) ∧
    (st.contactId = none →
      (fetchMessages remote none st).messages = [] ∧
      (fetchMessages remote none st).loading = false ∧
      ∀ s, EngineAction.remoteQuery s ∉ fetchTrace remote none st) := by
  constructor
  · refine ⟨?_, ?_, ?_⟩ <;>
      simp [setContactId, selectTrace, fetchTrace, applyTrace, applyAction]
  · intro hc
    refine ⟨?_, ?_, ?_⟩ <;>
      simp [fetchMessages, fetchTrace, hc, applyTrace, applyAction]

/-- Claim C8 witness: fetch at the initial state (no active conversation). -/
theorem claim8_witness :
    (fetchMessages remoteEmpty none initState).messages = [] ∧
    (fetchMessages remoteEmpty none initState).loading = false ∧
    ∀ s, EngineAction.remoteQuery s ∉ fetchTrace remoteEmpty none initState :=
  (claim8_theorem remoteEmpty initState).2 rfl

/-- Claim C5: with a non-null (and non-empty, hence actually queried) active
conversation, a failing remote query leaves the message list exactly as it
was, records the failure's message as the error value, and ends with
`loading = false`; a successful fetch also ends with `loading = false`. -/
theorem claim5_theorem (remote : String → Except String (List WhatsAppMessage))
    (st : EngineState) (c : String) (hc : st.contactId = some c)
    (hcne : c ≠ "") :
    (∀ e, remote c = Except.error e →
      (fetchMessages remote none st).error = some e ∧
      (fetchMessages remote none st).messages = st.messages ∧
      (fetchMessages remote none st).loading = false) ∧
    (∀ data, remote c = Except.ok data →
      (fetchMessages remote none st).loading = false) := by
  constructor
  · intro e hrem
    refine ⟨?_, ?_, ?_⟩ <;>
      simp [fetchMessages, fetchTrace, hc, hcne, hrem, applyTrace, applyAction]
  · intro data hrem
    simp [fetchMessages, fetchTrace, hc, hcne, hrem, applyTrace, applyAction]

/-- Claim C5 witness: a failing fetch on `stActive5`. -/
theorem claim5_witness :
    (fetchMessages remoteBoom none stActive5).error = some "boom" ∧
    (fetchMessages remoteBoom none stActive5).messages = stActive5.messages ∧
    (fetchMessages remoteBoom none stActive5).loading = false :=
  (claim5_theorem remoteBoom stActive5 "5" rfl (by decide)).1 "boom" rfl

/-- Claim C10: every fetch whose resolved conversation id is non-null (and
non-empty) first resets the error to null and only then issues the remote
query, so a successful fetch completes with a null error value. -/
theorem claim10_theorem
    (remote : String → Except String (List WhatsAppMessage))
    (forContactId : Option (Option String)) (st : EngineState) (c : String)
    (hc : forContactId.getD st.contactId = some c) (hcne : c ≠ "") :
    (∃ rest, fetchTrace remote forContactId st =
      EngineAction.setError none :: EngineAction.remoteQuery c :: rest) ∧
    (∀ data, remote c = Except.ok data →
      (fetchMessages remote forContactId st).error = none) := by
  constructor
  · unfold fetchTrace
    rw [hc]
    cases hrem : remote c with
    | ok data =>
      exact ⟨[EngineAction.replaceMessages data, EngineAction.setLoading false],
        by simp [hcne, hrem]⟩
    | error e =>
      exact ⟨[EngineAction.setError (some e), EngineAction.setLoading false],
        by simp [hcne, hrem]⟩
  · intro data hrem
    simp [fetchMessages, fetchTrace, hc, hcne, hrem, applyTrace, applyAction]

/-- Claim C10 witness: a successful fetch on `stActive5` resets a previous
error. -/
theorem claim10_witness :
    (∃ rest, fetchTrace remoteEmpty none stActive5 =
      EngineAction.setError none :: EngineAction.remoteQuery "5" :: rest) ∧
    (fetchMessages remoteEmpty none stActive5).error = none := by
  have h := claim10_theorem remoteEmpty none stActive5 "5" rfl (by decide)
  exact ⟨h.1, h.2 [] rfl⟩

/-- Claim C4 counterexample: a DELETE event whose owning conversation ("7",
per the sender-numeric rule applied to the deleted row) differs from the
active conversation "5" still changes the state — the code applies no
owning-conversation filter to DELETE events, only the active-conversation
null check. -/
theorem claim4_counterexample :
    stActive5.contactId = some "5" ∧
    msgContact (mkMsg 1 (some "7") none none) = some "7" ∧
    (applyEvent stActive5
      (EngineEvent.realtime
        (RealtimePayload.delete (mkMsg 1 (some "7") none none)))).messages ≠
      stActive5.messages := by decide

/-- Claim C4 (amended): every realtime event is ignored when no conversation
is active; INSERT and UPDATE events whose owning conversation (the sender
field when it is a pure numeric external identifier, the recipient field
otherwise) differs from the active conversation leave the state unchanged.
DELETE events are not filtered by owning conversation. -/
theorem claim4_theorem (st : EngineState) :
    (st.contactId = none → ∀ p, applyEvent st (EngineEvent.realtime p) = st) ∧
    (∀ c, st.contactId = some c → ∀ m, msgContact m ≠ some c →
      applyEvent st (EngineEvent.realtime (RealtimePayload.insert m)) = st ∧
      applyEvent st (EngineEvent.realtime (RealtimePayload.update m)) = st) :=
  ⟨fun hc p => applyEvent_realtime_none hc p,
   fun _ hc _m hx => ⟨applyEvent_realtime_insert_skip hc hx,
     applyEvent_realtime_update_skip hc hx⟩⟩

/-- Claim C4 witness: INSERT and UPDATE events owned by conversation "7" are
ignored while conversation "5" is active. -/
theorem claim4_witness :
    applyEvent stActive5
      (EngineEvent.realtime
        (RealtimePayload.insert (mkMsg 3 (some "7") none none))) = stActive5 ∧
    applyEvent stActive5
      (EngineEvent.realtime
        (RealtimePayload.update (mkMsg 3 (some "7") none none))) = stActive5 :=
  (claim4_theorem stActive5).2 "5" rfl (mkMsg 3 (some "7") none none)
    (by decide)

/-- Claim C7: the optimistic submit always returns the synthesized record to
the caller; when the synthesized record matches an existing entry by
identifier or non-empty external id the submit is a no-op on the state; and
two consecutive submits of the same input with a supplied (non-zero, hence
actually used) identifier leave the second call a no-op, so at most one
entry is added. -/
theorem claim7_theorem (st : EngineState) (now : Nat) (nowIso : String)
    (p : MsgInput) :
    (addOptimisticMessage now nowIso p st).1 = synthesizeMessage now nowIso p ∧
    ((∃ m ∈ st.messages,
        sameMessage m (synthesizeMessage now nowIso p) = true) →
      (addOptimisticMessage now nowIso p st).2 = st) ∧
    (∀ now2 nowIso2 k, p.id = some k → k ≠ 0 →
      (addOptimisticMessage now2 nowIso2 p
          (addOptimisticMessage now nowIso p st).2).2 =
        (addOptimisticMessage now nowIso p st).2 ∧
      (addOptimisticMessage now2 nowIso2 p
          (addOptimisticMessage now nowIso p st).2).2.messages.length ≤
        st.messages.length + 1) := by
  refine ⟨rfl, ?_, ?_⟩
  · intro h
    show { st with messages := addOptimistic _ st.messages } = st
    rw [addOptimistic_of_match h]
  · intro now2 nowIso2 k hk h0
    have hid1 : (synthesizeMessage now nowIso p).id = k :=
      synthesizeMessage_id_of_supplied hk h0 now nowIso
    have hid2 : (synthesizeMessage now2 nowIso2 p).id = k :=
      synthesizeMessage_id_of_supplied hk h0 now2 nowIso2
    have hstep : ∃ m ∈ (addOptimisticMessage now nowIso p st).2.messages,
        sameMessage m (synthesizeMessage now2 nowIso2 p) = true := by
      show ∃ m ∈ addOptimistic _ st.messages, _
      by_cases hany :
          st.messages.any (fun m => sameMessage m (synthesizeMessage now nowIso p)) = true
      · rcases List.any_eq_true.mp hany with ⟨m, hm, hsm⟩
        refine ⟨m, by rw [addOptimistic, if_pos hany]; exact hm, ?_⟩
        rcases sameMessage_true_cases (by simpa using hsm) with hide | hmide
        · exact sameMessage_of_id_eq (by rw [hide, hid1, hid2])
        · have : midMatch m (synthesizeMessage now2 nowIso2 p) = true := by
            rw [midMatch, synthesizeMessage_mid] at hmide ⊢
            exact hmide
          simp [sameMessage, this]
      · refine ⟨synthesizeMessage now nowIso p, ?_, ?_⟩
        · rw [addOptimistic, if_neg (by simpa using hany)]
          simp
        · exact sameMessage_of_id_eq (by rw [hid1, hid2])
    have hnoop : (addOptimisticMessage now2 nowIso2 p
        (addOptimisticMessage now nowIso p st).2).2 =
        (addOptimisticMessage now nowIso p st).2 := by
      show EngineState.mk
          (addOptimistic (synthesizeMessage now2 nowIso2 p)
            (addOptimisticMessage now nowIso p st).2.messages)
          (addOptimisticMessage now nowIso p st).2.loading
          (addOptimisticMessage now nowIso p st).2.error
          (addOptimisticMessage now nowIso p st).2.contactId =
        (addOptimisticMessage now nowIso p st).2
      rw [addOptimistic_of_match hstep]
    refine ⟨hnoop, ?_⟩
    rw [hnoop]
    show (addOptimistic _ st.messages).length ≤ st.messages.length + 1
    unfold addOptimistic
    by_cases hany :
        st.messages.any (fun m => sameMessage m (synthesizeMessage now nowIso p)) = true
    · rw [if_pos hany]
      exact Nat.le_succ _
    · rw [if_neg (by simpa using hany)]
      simp

/-- Claim C7 witness: submitting a partial message with supplied identifier 1
while an entry with identifier 1 is already listed is a no-op on the state,
still returns the synthesized record, and repeating the call stays a no-op. -/
theorem claim7_witness :
    (addOptimisticMessage 100 "t" pId1 stActive5).1 =
      synthesizeMessage 100 "t" pId1 ∧
    (addOptimisticMessage 100 "t" pId1 stActive5).2 = stActive5 ∧
    (addOptimisticMessage 200 "u" pId1
        (addOptimisticMessage 100 "t" pId1 stActive5).2).2 =
      (addOptimisticMessage 100 "t" pId1 stActive5).2 := by
  have h := claim7_theorem stActive5 100 "t" pId1
  exact ⟨h.1, h.2.1 ⟨msgA, by decide, by decide⟩,
    (h.2.2 200 "u" 1 rfl (by decide)).1⟩

/-- Claim C3: for an event accepted for the active (non-null, non-empty)
conversation: an INSERT with no matching entry appends the event's message
with status "sent" at the end; an INSERT matching an entry (the first match,
at its list position) replaces exactly that entry in place with the event's
message carrying status "sent"; an UPDATE is a no-op when no entry has the
event's identifier and otherwise replaces the (unique) matching entry in
place with status "sent"; a DELETE is a no-op when no entry has the deleted
identifier and in general keeps exactly the entries with a different
identifier, in order. All other entries and their relative order are
unchanged in every case. -/
theorem claim3_theorem (st : EngineState) (c : String)
    (hc : st.contactId = some c) (hcne : c ≠ "") :
    (∀ m, msgContact m = some c →
      ((∀ x ∈ st.messages, sameMessage x m = false) →
        (applyEvent st
          (EngineEvent.realtime (RealtimePayload.insert m))).messages =
          st.messages ++ [setSent m]) ∧
      (∀ l₁ y l₂, st.messages = l₁ ++ y :: l₂ → sameMessage y m = true →
        (∀ x ∈ l₁, sameMessage x m = false) →
        (applyEvent st
          (EngineEvent.realtime (RealtimePayload.insert m))).messages =
          l₁ ++ setSent m :: l₂)) ∧
    (∀ u, msgContact u = some c →
      ((∀ x ∈ st.messages, x.id ≠ u.id) →
        (applyEvent st
          (EngineEvent.realtime (RealtimePayload.update u))).messages =
          st.messages) ∧
      (∀ l₁ y l₂, st.messages = l₁ ++ y :: l₂ → y.id = u.id →
        (∀ x ∈ l₁, x.id ≠ u.id) → (∀ x ∈ l₂, x.id ≠ u.id) →
        (applyEvent st
          (EngineEvent.realtime (RealtimePayload.update u))).messages =
          l₁ ++ setSent u :: l₂)) ∧
    (∀ old : WhatsAppMessage,
      ((∀ x ∈ st.messages, x.id ≠ old.id) →
        (applyEvent st
          (EngineEvent.realtime (RealtimePayload.delete old))).messages =
          st.messages) ∧
      (applyEvent st
        (EngineEvent.realtime (RealtimePayload.delete old))).messages =
        st.messages.filter (fun x => x.id != old.id)) := by
  refine ⟨?_, ?_, ?_⟩
  · intro m hm
    constructor
    · intro hno
      rw [applyEvent_realtime_insert hc hcne hm]
      exact handleInsert_of_no_match hno
    · intro l₁ y l₂ hdec hy h₁
      rw [applyEvent_realtime_insert hc hcne hm]
      show handleInsert m st.messages = _
      rw [hdec]
      exact handleInsert_decomp l₁ l₂ h₁ hy
  · intro u hu
    constructor
    · intro hno
      rw [applyEvent_realtime_update hc hcne hu]
      exact handleUpdate_of_no_match hno
    · intro l₁ y l₂ hdec hy h₁ h₂
      rw [applyEvent_realtime_update hc hcne hu]
      show handleUpdate u st.messages = _
      rw [hdec]
      exact handleUpdate_decomp l₁ l₂ hy h₁ h₂
  · intro old
    constructor
    · intro hno
      rw [applyEvent_realtime_delete hc hcne]
      exact handleDelete_of_no_match hno
    · rw [applyEvent_realtime_delete hc hcne]
      rfl

/-- Claim C3 witness: an accepted INSERT with no matching entry appends the
message with status "sent". -/
theorem claim3_witness :
    (applyEvent stActive5
      (EngineEvent.realtime
        (RealtimePayload.insert (mkMsg 9 (some "5") none none)))).messages =
      stActive5.messages ++ [setSent (mkMsg 9 (some "5") none none)] :=
  ((claim3_theorem stActive5 "5" rfl (by decide)).1
    (mkMsg 9 (some "5") none none) (by decide)).1 (by decide)

/-- Claim C2 counterexample: in `stCex2` (conversation "5" active, one entry
of id 5 with external id "x"), submitting the optimistic message of supplied
id 7 and then applying an accepted INSERT of id 7 with external id "x" —
which matches the optimistic record by identifier — leaves TWO entries for
that logical message, not one: the INSERT's `findIndex` hits the older entry
(matching by external id) first, and the optimistic entry keeps status
"sending". -/
theorem claim2_counterexample :
    sameMessage (synthesizeMessage 100 "t" pId7) insCex2 = true ∧
    msgContact insCex2 = stCex2.contactId.getD "" ∧
    (applyEvent (applyEvent stCex2 (EngineEvent.optimistic 100 "t" pId7))
        (EngineEvent.realtime (RealtimePayload.insert insCex2))).messages.countP
      (fun x => sameMessage x insCex2) ≠ 1 := by decide

/-- Claim C2 (amended): submitting an optimistic message and then applying a
realtime INSERT accepted for the active conversation whose message matches
the synthesized record by identifier or non-empty external id yields exactly
one entry for that logical message, placed at the optimistic entry's list
position with status "sent" — provided no entry of the prior list already
matches the synthesized record (so the submit really appends) or the
inserted message (so the INSERT's first match is the optimistic entry). -/
theorem claim2_theorem (st : EngineState) (c : String) (now : Nat)
    (nowIso : String) (p : MsgInput) (ins : WhatsAppMessage)
    (hc : st.contactId = some c) (hcne : c ≠ "")
    (hacc : msgContact ins = some c)
    (hmatch : sameMessage (synthesizeMessage now nowIso p) ins = true)
    (hfresh : ∀ x ∈ st.messages,
      sameMessage x (synthesizeMessage now nowIso p) = false)
    (hnosteal : ∀ x ∈ st.messages, sameMessage x ins = false) :
    (applyEvent (applyEvent st (EngineEvent.optimistic now nowIso p))
        (EngineEvent.realtime (RealtimePayload.insert ins))).messages =
      st.messages ++ [setSent ins] ∧
    (applyEvent (applyEvent st (EngineEvent.optimistic now nowIso p))
        (EngineEvent.realtime (RealtimePayload.insert ins))).messages.countP
      (fun x => sameMessage x ins) = 1 ∧
    (setSent ins).status = "sent" := by
  have hst1 : applyEvent st (EngineEvent.optimistic now nowIso p) =
      { st with messages :=
          st.messages ++ [synthesizeMessage now nowIso p] } := by
    rw [applyEvent_optimistic, addOptimistic_of_no_match hfresh]
  have hmain : (applyEvent (applyEvent st (EngineEvent.optimistic now nowIso p))
      (EngineEvent.realtime (RealtimePayload.insert ins))).messages =
      st.messages ++ [setSent ins] := by
    have hc2 : ({ st with messages :=
        st.messages ++ [synthesizeMessage now nowIso p] } : EngineState).contactId =
        some c := hc
    rw [hst1, applyEvent_realtime_insert hc2 hcne hacc]
    show handleInsert ins (st.messages ++ [synthesizeMessage now nowIso p]) = _
    rw [handleInsert_decomp st.messages [] hnosteal hmatch]
  refine ⟨hmain, ?_, rfl⟩
  rw [hmain, List.countP_append]
  have h0 : st.messages.countP (fun x => sameMessage x ins) = 0 := by
    rw [List.countP_eq_zero]
    intro a ha
    simp [hnosteal a ha]
  rw [h0]
  simp [List.countP_cons, sameMessage_of_id_eq (setSent_id ins)]

/-- Claim C2 witness: on `stEmpty5`, an optimistic submit of supplied id 7
followed by the accepted INSERT of id 7 produces exactly the prior list plus
one "sent" entry. -/
theorem claim2_witness :
    (applyEvent (applyEvent stEmpty5 (EngineEvent.optimistic 100 "t" pId7))
        (EngineEvent.realtime (RealtimePayload.insert insW2))).messages =
      stEmpty5.messages ++ [setSent insW2] ∧
    (applyEvent (applyEvent stEmpty5 (EngineEvent.optimistic 100 "t" pId7))
        (EngineEvent.realtime (RealtimePayload.insert insW2))).messages.countP
      (fun x => sameMessage x insW2) = 1 :=
  ⟨(claim2_theorem stEmpty5 "5" 100 "t" pId7 insW2 rfl (by decide) (by decide)
      (by decide) (by decide) (by decide)).1,
   (claim2_theorem stEmpty5 "5" 100 "t" pId7 insW2 rfl (by decide) (by decide)
      (by decide) (by decide) (by decide)).2.1⟩

/-- Claim C1 counterexample: starting from the initial state, the event
sequence `cex1Events` (select conversation "5" with an empty, duplicate-free
snapshot, then three accepted INSERTs) produces a list violating "at most one
entry per identifier and at most one entry per non-empty external id": the
third INSERT matches the first entry by identifier and replaces it, leaving
two entries with external id "x". -/
theorem claim1_counterexample :
    ¬ ((((runEvents initState cex1Events).messages.map
        (fun m => m.id)).Nodup) ∧
      (runEvents initState cex1Events).messages.Pairwise
        (fun m n => midMatch m n = false)) := by decide

/-- Claim C1 (amended): for every sequence of realtime INSERT/UPDATE/DELETE
events, optimistic submissions, and snapshot fetches applied to the engine's
initial state, the resulting message list contains at most one entry per
identifier and at most one entry per non-empty external message identifier —
provided snapshot results are duplicate-free AND all message records brought
into play draw their (identifier, external id) keys from one coherent key
set, in which a shared non-empty external id forces an equal identifier.
Without the coherence proviso the property fails (see the counterexample). -/
theorem claim1_theorem (OkM : Nat → Option String → Prop)
    (hco : CoherentKeys OkM) (es : List EngineEvent)
    (hes : ∀ e ∈ es, OkEvent OkM e) :
    (((runEvents initState es).messages.map (fun m => m.id)).Nodup) ∧
    (runEvents initState es).messages.Pairwise
      (fun m n => midMatch m n = false) := by
  have h0 : InvList OkM initState.messages := invList_nil OkM
  have h := invList_runEvents hco hes h0
  constructor
  · rw [List.Nodup, List.pairwise_map]
    exact h.2.imp (fun hk => hk.1)
  · exact h.2.imp (fun hk => hk.2)

/-- Claim C1 witness: one accepted INSERT under the coherent key set
containing only the key of `msgA`. -/
theorem claim1_witness :
    (((runEvents initState
        [EngineEvent.select remoteEmpty (some "5"),
         EngineEvent.realtime (RealtimePayload.insert msgA)]).messages.map
      (fun m => m.id)).Nodup) ∧
    (runEvents initState
        [EngineEvent.select remoteEmpty (some "5"),
         EngineEvent.realtime (RealtimePayload.insert msgA)]).messages.Pairwise
      (fun m n => midMatch m n = false) :=
  claim1_theorem (fun i mi => i = 1 ∧ mi = none)
    (fun _ _ _ _ hi hj _ => by rw [hi.1, hj.1])
    [EngineEvent.select remoteEmpty (some "5"),
     EngineEvent.realtime (RealtimePayload.insert msgA)]
    (by
      intro e he
      rcases List.mem_cons.mp he with h1 | h1
      · rw [h1]
        intro s l hl
        rw [show l = [] from (Except.ok.injEq _ _).mp hl.symm]
        exact invList_nil _
      · rw [List.mem_singleton.mp h1]
        exact ⟨rfl, rfl⟩)

/-- Claim C6 witness: a concrete background refetch trace contains no
`setLoading true`, while a concrete select trace does. -/
theorem claim6_witness :
    EngineAction.setLoading true ∉ fetchTrace remoteEmpty none stActive5 ∧
    EngineAction.setLoading true ∈ selectTrace remoteEmpty (some "5") stActive5 :=
  ⟨claim6_theorem.1 remoteEmpty none stActive5,
   claim6_theorem.2.2.2 remoteEmpty (some "5") stActive5⟩
